import Mathlib

/-!
Shallow embedding of the static web server in `run.py`.

The program is a small Flask application:
  * route `/` serves `send_from_directory('.', 'index.html')`;
  * route `/static/<path:path>` serves `send_from_directory('static', path)`;
  * an `after_request` hook `add_headers` sets the two cross-origin
    isolation headers on every response;
  * `CORS(app)` installs permissive CORS handling on all routes.

The filesystem is modelled as a finite association list from path-segment
lists to file contents (lists of bytes).  A request path is modelled as the
URL path split at slash characters, so the URL `/static/a/b` is the list
`["", "static", "a", "b"]` and the URL `/` is `["", ""]`.
-/

namespace Terra

/-- HTTP methods as seen by the routing layer. -/
inductive Method where
  | GET | HEAD | OPTIONS | POST | PUT | DELETE | PATCH
deriving DecidableEq, Repr

/-- A filesystem: a finite map from paths (lists of segments, relative to the
application root) to file contents (bytes). -/
abbrev Fs := List (List String × List Nat)

/-- An HTTP response: status code, header list and body bytes. -/
structure Response where
  status  : Nat
  headers : List (String × String)
  body    : List Nat
deriving DecidableEq, Repr

/-- An HTTP request: a method and the URL path split at slash characters. -/
structure Request where
  method : Method
  path   : List String
deriving DecidableEq, Repr

/-- First value bound to a header name in a header list. -/
def lookupHeader : List (String × String) → String → Option String
  | [], _ => none
  | (k, v) :: rest, q => if k = q then some v else lookupHeader rest q

/-- Value of a header on a response. -/
def getHeader (r : Response) (k : String) : Option String :=
  lookupHeader r.headers k

/-- Drop every binding of a header name. -/
def removeHeader : List (String × String) → String → List (String × String)
  | [], _ => []
  | kv :: rest, k => if kv.1 = k then removeHeader rest k else kv :: removeHeader rest k

/-- Set a header on a response, overwriting any previously present value,
as the assignment `response.headers[k] = v` does. -/
def setHeader (r : Response) (k v : String) : Response :=
  { r with headers := (k, v) :: removeHeader r.headers k }

/-- Look a file up in the filesystem. -/
def lookupFile : Fs → List String → Option (List Nat)
  | [], _ => none
  | (k, c) :: rest, q => if k = q then some c else lookupFile rest q

/-- A path segment is safe when it is neither empty nor a current- or
parent-directory reference. -/
def isSafeSeg (s : String) : Bool :=
  s != "" && s != "." && s != ".."

/-- Modelled from the spec: the safety check of the file-serving primitive
(the `safe_join` step of `send_from_directory`), which accepts only relative,
already-normalized paths and in particular rejects every path containing a
`..` traversal segment. -/
def isSafePath (p : List String) : Bool :=
  !p.isEmpty && p.all isSafeSeg

/-- Characters after the last dot of a character list, when a dot occurs. -/
def afterLastDot : List Char → Option (List Char)
  | [] => none
  | c :: rest =>
    match afterLastDot rest with
    | some e => some e
    | none => if c = '.' then some rest else none

/-- File extension: the part of a file name after the last dot, or the empty
string if the name has no dot. -/
def fileExt (name : String) : String :=
  match afterLastDot name.data with
  | some e => String.mk e
  | none => ""

/-- Modelled from the spec: the content-type table of the file-serving
primitive, keyed by file extension. -/
def mimeFromExt (ext : String) : String :=
  match ext with
  | "html" => "text/html"
  | "js" => "text/javascript"
  | "css" => "text/css"
  | "png" => "image/png"
  | "svg" => "image/svg+xml"
  | "json" => "application/json"
  | "wasm" => "application/wasm"
  | _ => "application/octet-stream"

/-- Body of the framework default not-found error page (abstracted to a fixed
non-empty byte list). -/
def notFoundBody : List Nat := [52, 48, 52]

/-- Body of the framework default method-not-allowed error page. -/
def methodNotAllowedBody : List Nat := [52, 48, 53]

/-- The 404 response produced when a file is absent, a path escapes its
directory, or no route matches. -/
def notFoundResponse : Response :=
  { status := 404, headers := [("Content-Type", "text/html")], body := notFoundBody }

/-- A 200 response carrying file content and its inferred content type. -/
def okFileResponse (content : List Nat) (mime : String) : Response :=
  { status := 200, headers := [("Content-Type", mime)], body := content }

/-- Modelled from the spec: the file-serving primitive
(`send_from_directory(dir, p)`): reject unsafe paths, look the file up under
the given directory, serve it with a content type inferred from its
extension, and signal not-found otherwise. -/
def sendFromDirectory (dir p : List String) (fs : Fs) : Response :=
  if isSafePath p then
    match lookupFile fs (dir ++ p) with
    | some content => okFileResponse content (mimeFromExt (fileExt (p.getLastD "")))
    | none => notFoundResponse
  else notFoundResponse

/-- The `index` view of run.py: `send_from_directory('.', 'index.html')`.
The document root `.` is the empty directory prefix. -/
def index (fs : Fs) : Response :=
  sendFromDirectory [] ["index.html"] fs

/-- The `send_static` view of run.py: `send_from_directory('static', path)`. -/
def send_static (path : List String) (fs : Fs) : Response :=
  sendFromDirectory ["static"] path fs

/-- The `add_headers` after-request hook of run.py: unconditionally set the
two cross-origin isolation headers, overwriting prior values. -/
def add_headers (r : Response) : Response :=
  setHeader (setHeader r "Cross-Origin-Opener-Policy" "same-origin")
    "Cross-Origin-Embedder-Policy" "require-corp"

/-- The two registered routes. -/
inductive Route where
  | root
  | staticRoute (rest : List String)
deriving DecidableEq, Repr

/-- Modelled from the spec: the routing layer.  `/` matches the root route;
`/static/<path:path>` matches when the captured remainder is non-empty and
does not start with a slash (an empty leading segment); anything else is
unmatched. -/
def matchRoute : List String → Option Route
  | ["", ""] => some .root
  | "" :: "static" :: s :: rest =>
      if s = "" then none else some (.staticRoute (s :: rest))
  | _ => none

/-- Run the view function registered for a route. -/
def runRoute (fs : Fs) : Route → Response
  | .root => index fs
  | .staticRoute rest => send_static rest fs

/-- Methods the routing layer registers for every route: the declared GET
plus the automatic HEAD and OPTIONS. -/
def allowHeader : String := "GET, HEAD, OPTIONS"

/-- Modelled from the spec: the automatic OPTIONS response of the routing
layer, produced without invoking the view function. -/
def optionsResponse : Response :=
  { status := 200, headers := [("Allow", allowHeader)], body := [] }

/-- The framework response for a matched path with a disallowed method. -/
def methodNotAllowedResponse : Response :=
  { status := 405
    headers := [("Allow", allowHeader), ("Content-Type", "text/html")]
    body := methodNotAllowedBody }

/-- Route dispatch: unmatched paths give 404; on a matched route, GET and
HEAD run the view function, OPTIONS is answered automatically, and any other
method is rejected. -/
def dispatch (fs : Fs) (req : Request) : Response :=
  match matchRoute req.path with
  | none => notFoundResponse
  | some r =>
    match req.method with
    | .GET | .HEAD => runRoute fs r
    | .OPTIONS => optionsResponse
    | _ => methodNotAllowedResponse

/-- Modelled from the spec: the CORS middleware (permissive defaults) adds
`Access-Control-Allow-Origin: *` to every response that does not already
carry that header. -/
def corsAfterRequest (r : Response) : Response :=
  match getHeader r "Access-Control-Allow-Origin" with
  | some _ => r
  | none => setHeader r "Access-Control-Allow-Origin" "*"

/-- Drop the response body, as the server does when answering HEAD. -/
def stripBody (r : Response) : Response :=
  { r with body := [] }

/-- Full request handling: route dispatch, then the after-request hooks in
their execution order (`add_headers` first, then the CORS hook), then body
stripping for HEAD requests when the response is written. -/
def handle (fs : Fs) (req : Request) : Response :=
  let r := corsAfterRequest (add_headers (dispatch fs req))
  if req.method = .HEAD then stripBody r else r

/-- Filesystem-threaded file serving: the same computation as
`sendFromDirectory`, returning the filesystem it leaves behind. -/
def sendFromDirectoryFS (dir p : List String) (fs : Fs) : Response × Fs :=
  if isSafePath p then
    match lookupFile fs (dir ++ p) with
    | some content => (okFileResponse content (mimeFromExt (fileExt (p.getLastD ""))), fs)
    | none => (notFoundResponse, fs)
  else (notFoundResponse, fs)

/-- Filesystem-threaded view dispatch. -/
def runRouteFS (fs : Fs) : Route → Response × Fs
  | .root => sendFromDirectoryFS [] ["index.html"] fs
  | .staticRoute rest => sendFromDirectoryFS ["static"] rest fs

/-- Filesystem-threaded route dispatch. -/
def dispatchFS (fs : Fs) (req : Request) : Response × Fs :=
  match matchRoute req.path with
  | none => (notFoundResponse, fs)
  | some r =>
    match req.method with
    | .GET | .HEAD => runRouteFS fs r
    | .OPTIONS => (optionsResponse, fs)
    | _ => (methodNotAllowedResponse, fs)

/-- Filesystem-threaded request handling. -/
def handleFS (fs : Fs) (req : Request) : Response × Fs :=
  let rf := dispatchFS fs req
  let r := corsAfterRequest (add_headers rf.1)
  (if req.method = .HEAD then stripBody r else r, rf.2)

/-- A sequence of requests handled one after the other, each over the
filesystem the previous one left behind. -/
def serveAll (fs : Fs) : List Request → List Response × Fs
  | [] => ([], fs)
  | req :: rest =>
    let rf := handleFS fs req
    let tl := serveAll rf.2 rest
    (rf.1 :: tl.1, tl.2)

/-- A not-found condition for a matched route: the looked-up file is absent
or the captured path is unsafe. -/
def routeMisses (fs : Fs) : Route → Prop
  | .root => lookupFile fs ["index.html"] = none
  | .staticRoute rest => isSafePath rest = false ∨ lookupFile fs ("static" :: rest) = none

/-- The exact condition under which the program produces NotFound: the path
is unmatched, or the matched route misses its file. -/
def notFoundCond (fs : Fs) (path : List String) : Prop :=
  match matchRoute path with
  | none => True
  | some r => routeMisses fs r

/-- A small concrete filesystem used by the witnesses. -/
def exFs : Fs :=
  [(["index.html"], [60, 104, 62]),
   (["static", "app.js"], [1, 2, 3]),
   (["secret.txt"], [9, 9])]

/-! ## Helper lemmas about headers -/

theorem lookupHeader_removeHeader_ne (l : List (String × String)) (k q : String)
    (h : q ≠ k) : lookupHeader (removeHeader l k) q = lookupHeader l q := by
  induction l with
  | nil => rfl
  | cons kv rest ih =>
    by_cases hk : kv.1 = k
    · have hkq : k ≠ q := fun he => h he.symm
      simp [removeHeader, hk, lookupHeader, hkq, ih]
    · by_cases hq : kv.1 = q
      · simp [removeHeader, hk, lookupHeader, hq, h, ih]
      · simp [removeHeader, hk, lookupHeader, hq, ih]

theorem getHeader_setHeader_same (r : Response) (k v : String) :
    getHeader (setHeader r k v) k = some v := by
  simp [getHeader, setHeader, lookupHeader]

theorem getHeader_setHeader_ne (r : Response) (k v q : String) (h : q ≠ k) :
    getHeader (setHeader r k v) q = getHeader r q := by
  have hk : k ≠ q := fun he => h he.symm
  simp [getHeader, setHeader, lookupHeader, hk, lookupHeader_removeHeader_ne _ _ _ h]

theorem status_setHeader (r : Response) (k v : String) :
    (setHeader r k v).status = r.status := rfl

theorem body_setHeader (r : Response) (k v : String) :
    (setHeader r k v).body = r.body := rfl

theorem status_add_headers (r : Response) : (add_headers r).status = r.status := rfl

theorem body_add_headers (r : Response) : (add_headers r).body = r.body := rfl

theorem status_cors (r : Response) : (corsAfterRequest r).status = r.status := by
  unfold corsAfterRequest
  cases getHeader r "Access-Control-Allow-Origin" <;> rfl

theorem body_cors (r : Response) : (corsAfterRequest r).body = r.body := by
  unfold corsAfterRequest
  cases getHeader r "Access-Control-Allow-Origin" <;> rfl

theorem getHeader_cors_ne (r : Response) (q : String)
    (h : q ≠ "Access-Control-Allow-Origin") :
    getHeader (corsAfterRequest r) q = getHeader r q := by
  unfold corsAfterRequest
  cases hm : getHeader r "Access-Control-Allow-Origin" with
  | none => exact getHeader_setHeader_ne _ _ _ _ h
  | some v => rfl

theorem getHeader_add_headers_ne (r : Response) (q : String)
    (h1 : q ≠ "Cross-Origin-Opener-Policy") (h2 : q ≠ "Cross-Origin-Embedder-Policy") :
    getHeader (add_headers r) q = getHeader r q := by
  unfold add_headers
  rw [getHeader_setHeader_ne _ _ _ _ h2, getHeader_setHeader_ne _ _ _ _ h1]

theorem getHeader_stripBody (r : Response) (q : String) :
    getHeader (stripBody r) q = getHeader r q := rfl

/-! ## Helper lemmas about the pipeline -/

theorem handle_status (fs : Fs) (req : Request) :
    (handle fs req).status = (dispatch fs req).status := by
  unfold handle
  by_cases h : req.method = .HEAD <;>
    simp [h, stripBody, status_cors, status_add_headers]

theorem handle_body (fs : Fs) (req : Request) (h : req.method ≠ .HEAD) :
    (handle fs req).body = (dispatch fs req).body := by
  unfold handle
  simp [h, body_cors, body_add_headers]

theorem handle_getHeader (fs : Fs) (req : Request) (q : String)
    (h1 : q ≠ "Cross-Origin-Opener-Policy") (h2 : q ≠ "Cross-Origin-Embedder-Policy")
    (h3 : q ≠ "Access-Control-Allow-Origin") :
    getHeader (handle fs req) q = getHeader (dispatch fs req) q := by
  unfold handle
  by_cases h : req.method = .HEAD <;>
    simp [h, getHeader_stripBody, getHeader_cors_ne _ _ h3, getHeader_add_headers_ne _ _ h1 h2]

theorem sendFromDirectory_status_eq_404 (dir p : List String) (fs : Fs) :
    (sendFromDirectory dir p fs).status = 404 ↔
      (isSafePath p = false ∨ lookupFile fs (dir ++ p) = none) := by
  unfold sendFromDirectory
  by_cases hs : isSafePath p
  · cases hl : lookupFile fs (dir ++ p) <;>
      simp [hs, hl, okFileResponse, notFoundResponse]
  · simp [hs, notFoundResponse]

theorem sendFromDirectory_found (dir p : List String) (fs : Fs) (c : List Nat)
    (hs : isSafePath p = true) (hl : lookupFile fs (dir ++ p) = some c) :
    sendFromDirectory dir p fs = okFileResponse c (mimeFromExt (fileExt (p.getLastD ""))) := by
  unfold sendFromDirectory
  simp [hs, hl]

theorem sendFromDirectory_no_acao (dir p : List String) (fs : Fs) :
    getHeader (sendFromDirectory dir p fs) "Access-Control-Allow-Origin" = none := by
  unfold sendFromDirectory
  by_cases hs : isSafePath p
  · cases hl : lookupFile fs (dir ++ p) <;>
      simp [hs, hl, okFileResponse, notFoundResponse, getHeader, lookupHeader]
  · simp [hs, notFoundResponse, getHeader, lookupHeader]

theorem runRoute_no_acao (fs : Fs) (r : Route) :
    getHeader (runRoute fs r) "Access-Control-Allow-Origin" = none := by
  cases r <;> simp [runRoute, index, send_static, sendFromDirectory_no_acao]

theorem dispatch_no_acao (fs : Fs) (req : Request) :
    getHeader (dispatch fs req) "Access-Control-Allow-Origin" = none := by
  unfold dispatch
  cases hm : matchRoute req.path with
  | none => simp [notFoundResponse, getHeader, lookupHeader]
  | some r =>
    cases req.method <;>
      first
        | exact runRoute_no_acao fs r
        | simp [optionsResponse, methodNotAllowedResponse, getHeader, lookupHeader]

theorem handle_acao (fs : Fs) (req : Request) :
    getHeader (handle fs req) "Access-Control-Allow-Origin" = some "*" := by
  have h1 : getHeader (add_headers (dispatch fs req)) "Access-Control-Allow-Origin" = none := by
    rw [getHeader_add_headers_ne _ _ (by decide) (by decide)]
    exact dispatch_no_acao fs req
  unfold handle
  by_cases h : req.method = .HEAD <;>
    simp [h, getHeader_stripBody, corsAfterRequest, h1, getHeader_setHeader_same]

/-! ## Equivalence of the filesystem-threaded pipeline -/

theorem sendFromDirectoryFS_eq (dir p : List String) (fs : Fs) :
    sendFromDirectoryFS dir p fs = (sendFromDirectory dir p fs, fs) := by
  unfold sendFromDirectoryFS sendFromDirectory
  by_cases hs : isSafePath p
  · cases hl : lookupFile fs (dir ++ p) <;> simp [hs, hl]
  · simp [hs]

theorem dispatchFS_eq (fs : Fs) (req : Request) :
    dispatchFS fs req = (dispatch fs req, fs) := by
  unfold dispatchFS dispatch
  cases matchRoute req.path with
  | none => rfl
  | some r =>
    cases req.method <;> cases r <;>
      simp [runRouteFS, runRoute, index, send_static, sendFromDirectoryFS_eq]

theorem handleFS_eq (fs : Fs) (req : Request) :
    handleFS fs req = (handle fs req, fs) := by
  unfold handleFS handle
  rw [dispatchFS_eq]

theorem serveAll_snd (rs : List Request) (fs : Fs) : (serveAll fs rs).2 = fs := by
  induction rs generalizing fs with
  | nil => rfl
  | cons r rest ih => simp [serveAll, handleFS_eq, ih]

theorem get_ne_head : Method.GET ≠ Method.HEAD := by decide

/-! ## Reduction lemmas for the route table -/

theorem matchRoute_root : matchRoute ["", ""] = some .root := rfl

theorem matchRoute_static (s : String) (rest : List String) :
    matchRoute ("" :: "static" :: s :: rest)
      = if s = "" then none else some (Route.staticRoute (s :: rest)) := rfl

theorem matchRoute_static_bare : matchRoute ["", "static"] = none := rfl

theorem dispatch_head_eq_get (fs : Fs) (p : List String) :
    dispatch fs ⟨.HEAD, p⟩ = dispatch fs ⟨.GET, p⟩ := by
  unfold dispatch
  cases matchRoute p <;> rfl

theorem sendFromDirectory_status (dir p : List String) (fs : Fs) :
    (sendFromDirectory dir p fs).status = 200 ∨ (sendFromDirectory dir p fs).status = 404 := by
  unfold sendFromDirectory
  by_cases hs : isSafePath p
  · cases hl : lookupFile fs (dir ++ p) <;>
      simp [hs, hl, okFileResponse, notFoundResponse]
  · simp [hs, notFoundResponse]

/-! ## The claims -/

/-- C1: every response produced by the application carries
`Cross-Origin-Opener-Policy: same-origin` and
`Cross-Origin-Embedder-Policy: require-corp`, whatever the request, route
and status; and the `add_headers` hook sets both headers unconditionally on
any response, overwriting any previously present value. -/
theorem claim1_isolation_headers (fs : Fs) (req : Request) (r : Response) :
    getHeader (handle fs req) "Cross-Origin-Opener-Policy" = some "same-origin" ∧
    getHeader (handle fs req) "Cross-Origin-Embedder-Policy" = some "require-corp" ∧
    getHeader (add_headers r) "Cross-Origin-Opener-Policy" = some "same-origin" ∧
    getHeader (add_headers r) "Cross-Origin-Embedder-Policy" = some "require-corp" := by
  have hco : ∀ s : Response,
      getHeader (add_headers s) "Cross-Origin-Opener-Policy" = some "same-origin" := by
    intro s
    unfold add_headers
    rw [getHeader_setHeader_ne _ _ _ _ (by decide)]
    exact getHeader_setHeader_same _ _ _
  have hce : ∀ s : Response,
      getHeader (add_headers s) "Cross-Origin-Embedder-Policy" = some "require-corp" := by
    intro s
    unfold add_headers
    exact getHeader_setHeader_same _ _ _
  have hcorso : ∀ s : Response,
      getHeader (corsAfterRequest s) "Cross-Origin-Opener-Policy"
        = getHeader s "Cross-Origin-Opener-Policy" :=
    fun s => getHeader_cors_ne s _ (by decide)
  have hcorse : ∀ s : Response,
      getHeader (corsAfterRequest s) "Cross-Origin-Embedder-Policy"
        = getHeader s "Cross-Origin-Embedder-Policy" :=
    fun s => getHeader_cors_ne s _ (by decide)
  refine ⟨?_, ?_, hco r, hce r⟩
  · unfold handle
    by_cases h : req.method = .HEAD <;>
      simp [h, getHeader_stripBody, hcorso, hco]
  · unfold handle
    by_cases h : req.method = .HEAD <;>
      simp [h, getHeader_stripBody, hcorse, hce]

/-- C6: every response on every route carries
`Access-Control-Allow-Origin: *`, the permissive CORS default. -/
theorem claim6_cors_header (fs : Fs) (req : Request) :
    getHeader (handle fs req) "Access-Control-Allow-Origin" = some "*" :=
  handle_acao fs req

/-- C7: an OPTIONS pre-flight request to `/static/p` (for any captured path,
over any filesystem, in particular one where the target file does not exist)
is answered with status 200 and the permissive CORS header, never an
error. -/
theorem claim7_options_preflight (fs : Fs) (s : String) (rest : List String)
    (h : s ≠ "") :
    (handle fs ⟨.OPTIONS, "" :: "static" :: s :: rest⟩).status = 200 ∧
    getHeader (handle fs ⟨.OPTIONS, "" :: "static" :: s :: rest⟩)
      "Access-Control-Allow-Origin" = some "*" := by
  constructor
  · rw [handle_status]
    unfold dispatch
    rw [matchRoute_static]
    simp [h, optionsResponse]
  · exact handle_acao _ _

theorem claim7_options_preflight_witness :
    ("missing.bin" : String) ≠ "" ∧
    (handle ([] : Fs) ⟨.OPTIONS, ["", "static", "missing.bin"]⟩).status = 200 :=
  ⟨by decide, (claim7_options_preflight [] "missing.bin" [] (by decide)).1⟩

/-- C8: request handling is stateless and deterministic: in any sequence of
requests handled one after the other, the response to a request depends only
on the filesystem and that request (it equals the single-request response),
and no state is accumulated across requests. -/
theorem claim8_stateless (fs : Fs) (pre post : List Request) (req : Request) :
    ((serveAll fs (pre ++ req :: post)).1)[pre.length]? = some (handle fs req) ∧
    (serveAll fs (pre ++ req :: post)).2 = fs := by
  constructor
  · induction pre with
    | nil => simp [serveAll, handleFS_eq]
    | cons a pre ih => simp [serveAll, handleFS_eq, ih]
  · exact serveAll_snd _ _

/-- C9: handling a request leaves the filesystem unchanged: the threaded
request handler, the root view and the static view all return the
filesystem they were given. -/
theorem claim9_frame (fs : Fs) (req : Request) (p : List String) :
    (handleFS fs req).2 = fs ∧
    (sendFromDirectoryFS [] ["index.html"] fs).2 = fs ∧
    (sendFromDirectoryFS ["static"] p fs).2 = fs := by
  refine ⟨?_, ?_, ?_⟩ <;> simp [handleFS_eq, sendFromDirectoryFS_eq]

/-- C10: both routes also answer HEAD (same status and headers as GET, empty
body), and the root route answers OPTIONS, because HEAD and OPTIONS are
registered automatically for every route. -/
theorem claim10_head_options (fs : Fs) (p : List String) :
    (handle fs ⟨.HEAD, p⟩).status = (handle fs ⟨.GET, p⟩).status ∧
    (handle fs ⟨.HEAD, p⟩).headers = (handle fs ⟨.GET, p⟩).headers ∧
    (handle fs ⟨.HEAD, p⟩).body = [] ∧
    (handle fs ⟨.OPTIONS, ["", ""]⟩).status = 200 := by
  refine ⟨?_, ?_, ?_, ?_⟩
  · rw [handle_status, handle_status, dispatch_head_eq_get]
  · unfold handle
    simp [stripBody, dispatch_head_eq_get]
  · unfold handle
    simp [stripBody]
  · rw [handle_status]
    unfold dispatch
    rw [matchRoute_root]
    simp [optionsResponse]

/-- C4: `GET /` serves the fixed entry file `index.html` of the document
root: status 200 with the file content, byte for byte, and the content type
inferred from its extension; if the entry file is absent the request fails
with 404. -/
theorem claim4_root_index (fs : Fs) :
    (∀ c, lookupFile fs ["index.html"] = some c →
      (handle fs ⟨.GET, ["", ""]⟩).status = 200 ∧
      (handle fs ⟨.GET, ["", ""]⟩).body = c ∧
      getHeader (handle fs ⟨.GET, ["", ""]⟩) "Content-Type"
        = some (mimeFromExt (fileExt "index.html"))) ∧
    (lookupFile fs ["index.html"] = none →
      (handle fs ⟨.GET, ["", ""]⟩).status = 404) := by
  have hd : dispatch fs ⟨.GET, ["", ""]⟩ = sendFromDirectory [] ["index.html"] fs := by
    unfold dispatch
    rw [matchRoute_root]
    rfl
  constructor
  · intro c hl
    have hfound : sendFromDirectory [] ["index.html"] fs
        = okFileResponse c (mimeFromExt (fileExt "index.html")) :=
      sendFromDirectory_found [] ["index.html"] fs c (by decide) hl
    refine ⟨?_, ?_, ?_⟩
    · rw [handle_status, hd, hfound]
      rfl
    · rw [handle_body fs ⟨.GET, ["", ""]⟩ (by decide), hd, hfound]
      rfl
    · rw [handle_getHeader fs ⟨.GET, ["", ""]⟩ "Content-Type" (by decide) (by decide)
          (by decide), hd, hfound]
      simp [okFileResponse, getHeader, lookupHeader]
  · intro hl
    rw [handle_status, hd]
    exact (sendFromDirectory_status_eq_404 _ _ _).mpr (Or.inr hl)

theorem claim4_root_index_witness :
    (handle exFs ⟨.GET, ["", ""]⟩).status = 200 ∧
    (handle exFs ⟨.GET, ["", ""]⟩).body = [60, 104, 62] ∧
    (handle ([] : Fs) ⟨.GET, ["", ""]⟩).status = 404 :=
  ⟨((claim4_root_index exFs).1 [60, 104, 62] rfl).1,
   ((claim4_root_index exFs).1 [60, 104, 62] rfl).2.1,
   (claim4_root_index []).2 rfl⟩

/-- C2: for every safe path `p` naming an existing file under the static
directory, `GET /static/p` returns status 200 with the byte-identical file
content and a content type inferred from the file extension; when no file
exists at `static/p`, the request fails with 404. -/
theorem claim2_static_serving (fs : Fs) (p : List String) :
    (∀ c, isSafePath p = true → lookupFile fs ("static" :: p) = some c →
      (handle fs ⟨.GET, "" :: "static" :: p⟩).status = 200 ∧
      (handle fs ⟨.GET, "" :: "static" :: p⟩).body = c ∧
      getHeader (handle fs ⟨.GET, "" :: "static" :: p⟩) "Content-Type"
        = some (mimeFromExt (fileExt (p.getLastD "")))) ∧
    (lookupFile fs ("static" :: p) = none →
      (handle fs ⟨.GET, "" :: "static" :: p⟩).status = 404) := by
  constructor
  · intro c hs hl
    cases p with
    | nil => exact absurd hs (by decide)
    | cons s rest =>
      have hseg : isSafeSeg s = true := by
        have hall := hs
        simp [isSafePath, List.all_cons, Bool.and_eq_true] at hall
        exact hall.1
      have hs0 : s ≠ "" := by
        simp [isSafeSeg, Bool.and_eq_true] at hseg
        exact hseg.1.1
      have hd : dispatch fs ⟨.GET, "" :: "static" :: s :: rest⟩
          = sendFromDirectory ["static"] (s :: rest) fs := by
        unfold dispatch
        rw [matchRoute_static]
        simp [hs0, runRoute, send_static]
      have hfound : sendFromDirectory ["static"] (s :: rest) fs
          = okFileResponse c (mimeFromExt (fileExt ((s :: rest).getLastD ""))) :=
        sendFromDirectory_found ["static"] (s :: rest) fs c hs hl
      refine ⟨?_, ?_, ?_⟩
      · rw [handle_status, hd, hfound]
        rfl
      · rw [handle_body fs ⟨.GET, "" :: "static" :: s :: rest⟩ get_ne_head, hd, hfound]
        rfl
      · rw [handle_getHeader fs ⟨.GET, "" :: "static" :: s :: rest⟩ "Content-Type"
            (by decide) (by decide) (by decide), hd, hfound]
        simp [okFileResponse, getHeader, lookupHeader]
  · intro hl
    rw [handle_status]
    cases p with
    | nil =>
      unfold dispatch
      rw [matchRoute_static_bare]
      simp [notFoundResponse]
    | cons s rest =>
      by_cases hs0 : s = ""
      · unfold dispatch
        rw [matchRoute_static]
        simp [hs0, notFoundResponse]
      · have hd : dispatch fs ⟨.GET, "" :: "static" :: s :: rest⟩
            = sendFromDirectory ["static"] (s :: rest) fs := by
          unfold dispatch
          rw [matchRoute_static]
          simp [hs0, runRoute, send_static]
        rw [hd]
        exact (sendFromDirectory_status_eq_404 _ _ _).mpr (Or.inr hl)

theorem claim2_static_serving_witness :
    isSafePath ["app.js"] = true ∧
    (handle exFs ⟨.GET, ["", "static", "app.js"]⟩).status = 200 ∧
    (handle exFs ⟨.GET, ["", "static", "app.js"]⟩).body = [1, 2, 3] ∧
    getHeader (handle exFs ⟨.GET, ["", "static", "app.js"]⟩) "Content-Type"
      = some "text/javascript" ∧
    (handle exFs ⟨.GET, ["", "static", "missing.js"]⟩).status = 404 :=
  ⟨by decide,
   ((claim2_static_serving exFs ["app.js"]).1 [1, 2, 3] (by decide) rfl).1,
   ((claim2_static_serving exFs ["app.js"]).1 [1, 2, 3] (by decide) rfl).2.1,
   (((claim2_static_serving exFs ["app.js"]).1 [1, 2, 3] (by decide) rfl).2.2).trans
     (by decide),
   (claim2_static_serving exFs ["missing.js"]).2 rfl⟩

/-- C3: a `GET /static/p` request whose captured path contains a `..`
traversal segment is answered with status 404, and its body is the fixed
not-found page, never the content of any stored file. -/
theorem claim3_traversal_rejected (fs : Fs) (p : List String) (h : ".." ∈ p) :
    (handle fs ⟨.GET, "" :: "static" :: p⟩).status = 404 ∧
    (handle fs ⟨.GET, "" :: "static" :: p⟩).body = notFoundBody ∧
    ∀ k c, (k, c) ∈ fs → c ≠ notFoundBody →
      (handle fs ⟨.GET, "" :: "static" :: p⟩).body ≠ c := by
  have hbadpath : isSafePath p = false := by
    cases hsp : isSafePath p
    · rfl
    · exfalso
      simp [isSafePath, Bool.and_eq_true] at hsp
      have h2 := hsp.2 ".." h
      simp [isSafeSeg] at h2
  have hd : dispatch fs ⟨.GET, "" :: "static" :: p⟩ = notFoundResponse := by
    cases p with
    | nil => exact absurd h (by simp)
    | cons s rest =>
      by_cases hs0 : s = ""
      · unfold dispatch
        rw [matchRoute_static]
        simp [hs0]
      · unfold dispatch
        rw [matchRoute_static]
        simp [hs0, runRoute, send_static]
        unfold sendFromDirectory
        simp [hbadpath]
  have hb : (handle fs ⟨.GET, "" :: "static" :: p⟩).body = notFoundBody := by
    rw [handle_body fs ⟨.GET, "" :: "static" :: p⟩ get_ne_head, hd]
    rfl
  refine ⟨?_, hb, ?_⟩
  · rw [handle_status, hd]
    rfl
  · intro k c _ hc he
    rw [hb] at he
    exact hc he.symm

theorem claim3_traversal_rejected_witness :
    (".." ∈ (["..", "secret.txt"] : List String)) ∧
    (handle exFs ⟨.GET, ["", "static", "..", "secret.txt"]⟩).status = 404 ∧
    (handle exFs ⟨.GET, ["", "static", "..", "secret.txt"]⟩).body ≠ [9, 9] :=
  ⟨by decide,
   (claim3_traversal_rejected exFs ["..", "secret.txt"] (by decide)).1,
   (claim3_traversal_rejected exFs ["..", "secret.txt"] (by decide)).2.2
     ["secret.txt"] [9, 9] (by decide) (by decide)⟩

/-- C5: any request to an unmatched path is answered with 404; on the
interface methods every response is either 200 or 404; and for GET and HEAD
the response is 404 exactly when the path is unmatched, the looked-up file
does not exist, or the captured path escapes its directory. -/
theorem claim5_only_not_found (fs : Fs) (req : Request) :
    (matchRoute req.path = none → (handle fs req).status = 404) ∧
    (req.method = .GET ∨ req.method = .HEAD ∨ req.method = .OPTIONS →
      (handle fs req).status = 200 ∨ (handle fs req).status = 404) ∧
    ((req.method = .GET ∨ req.method = .HEAD) →
      ((handle fs req).status = 404 ↔ notFoundCond fs req.path)) := by
  have hroute : ∀ r : Route,
      (runRoute fs r).status = 404 ↔ routeMisses fs r := by
    intro r
    cases r with
    | root =>
      rw [show runRoute fs .root = sendFromDirectory [] ["index.html"] fs from rfl]
      rw [sendFromDirectory_status_eq_404]
      have hsafe : isSafePath ["index.html"] = true := by decide
      simp [hsafe, routeMisses]
    | staticRoute rest =>
      rw [show runRoute fs (.staticRoute rest) = sendFromDirectory ["static"] rest fs from rfl]
      rw [sendFromDirectory_status_eq_404]
      simp [routeMisses]
  refine ⟨?_, ?_, ?_⟩
  · intro hm
    rw [handle_status]
    unfold dispatch
    rw [hm]
    simp [notFoundResponse]
  · intro hm
    rw [handle_status]
    unfold dispatch
    cases hr : matchRoute req.path with
    | none => simp [notFoundResponse]
    | some r =>
      rcases hm with h | h | h <;> rw [h]
      · cases r with
        | root => exact sendFromDirectory_status [] ["index.html"] fs
        | staticRoute rest => exact sendFromDirectory_status ["static"] rest fs
      · cases r with
        | root => exact sendFromDirectory_status [] ["index.html"] fs
        | staticRoute rest => exact sendFromDirectory_status ["static"] rest fs
      · simp [optionsResponse]
  · intro hm
    rw [handle_status]
    unfold dispatch notFoundCond
    cases hr : matchRoute req.path with
    | none => simp [notFoundResponse]
    | some r =>
      rcases hm with h | h <;> rw [h] <;> exact hroute r

theorem claim5_only_not_found_witness :
    (handle exFs ⟨.GET, ["", "nope"]⟩).status = 404 ∧
    ((handle exFs ⟨.OPTIONS, ["", ""]⟩).status = 200 ∨
      (handle exFs ⟨.OPTIONS, ["", ""]⟩).status = 404) ∧
    (handle exFs ⟨.GET, ["", "static", "missing.js"]⟩).status = 404 :=
  ⟨(claim5_only_not_found exFs ⟨.GET, ["", "nope"]⟩).1 rfl,
   (claim5_only_not_found exFs ⟨.OPTIONS, ["", ""]⟩).2.1 (Or.inr (Or.inr rfl)),
   ((claim5_only_not_found exFs ⟨.GET, ["", "static", "missing.js"]⟩).2.2
       (Or.inl rfl)).mpr
     (show isSafePath ["missing.js"] = false ∨
        lookupFile exFs ["static", "missing.js"] = none from Or.inr (by decide))⟩

end Terra
